import Mathlib

/-!
Shallow embedding of the configuration module of the cld-mmrag repository
(src/app/config.py): typed configuration records, the aggregate builder
that reads the process environment, and the presence check over the six
mandatory service credentials.
-/

/-- A process environment: a partial map from variable names to values,
mirroring the map consulted by os.getenv and os.environ.get. A variable
is either set to some string (possibly empty) or unset. -/
abbrev Env := String → Option String

/-- os.getenv with a default: the value of the variable if it is set,
otherwise the given default. -/
def getenv (env : Env) (key dflt : String) : String :=
  (env key).getD dflt

/-- Dataclass AzureAISearchConfig: configuration for Azure AI Search. -/
structure AzureAISearchConfig where
  endpoint : String
  api_key : String
  index_name : String := "rag-index"

/-- Dataclass AzureDocIntelligenceConfig: configuration for Azure
Document Intelligence. -/
structure AzureDocIntelligenceConfig where
  endpoint : String
  api_key : String

/-- Dataclass AzureOpenAIConfig: configuration for Azure OpenAI. -/
structure AzureOpenAIConfig where
  endpoint : String
  api_key : String
  deployment_name : String := "gpt-4o"
  api_version : String := "2024-02-01"

/-- Python truthiness of the optional string returned by
os.environ.get: None and the empty string are falsy, every other
string is truthy. -/
def pyTruthy : Option String → Bool
  | none => false
  | some s => s != ""

/-- Dataclass ModelConfig: configuration for vision models. In the
source the default of the device field is computed from the
CUDA_AVAILABLE environment variable when the class body is evaluated,
once per process, so here it is a function of the environment supplied
at construction of the aggregate. -/
structure ModelConfig where
  model_choice : String := "florence2"
  device : String
  batch_size : Nat := 1

/-- The environment-derived default of the device field of ModelConfig
in the source: "cuda" if os.environ.get of CUDA_AVAILABLE is truthy,
else "cpu". -/
def ModelConfig.defaultDevice (env : Env) : String :=
  if pyTruthy (env ("CUDA_AVAILABLE")) then "cuda" else "cpu"

/-- Dataclass SystemConfig: system-wide configuration. -/
structure SystemConfig where
  temp_dir : String := "./temp"
  patch_matrix_dir : String := "./patch_matrices"
  manifest_dir : String := "./manifests"
  max_pages_per_doc : Nat := 100
  default_k : Nat := 10

/-- Class Config: the aggregate configuration object. The commented-out
blob-storage record of the source is inactive and therefore absent. -/
structure Config where
  ai_search : AzureAISearchConfig
  doc_intelligence : AzureDocIntelligenceConfig
  openai : AzureOpenAIConfig
  model : ModelConfig
  system : SystemConfig

/-- The body of Config.__init__: build every record from the
environment. Absent variables fall back to the defaults passed to
os.getenv; an unrecognized MODEL_CHOICE falls back to "florence2". -/
def Config.init (env : Env) : Config :=
  let ai_search : AzureAISearchConfig :=
    { endpoint := getenv env ("AZURE_SEARCH_ENDPOINT") (""),
      api_key := getenv env ("AZURE_SEARCH_API_KEY") ("") }
  let doc_intelligence : AzureDocIntelligenceConfig :=
    { endpoint := getenv env ("AZURE_DOC_INTELLIGENCE_ENDPOINT") (""),
      api_key := getenv env ("AZURE_DOC_INTELLIGENCE_API_KEY") ("") }
  let openai : AzureOpenAIConfig :=
    { endpoint := getenv env ("AZURE_OPENAI_ENDPOINT") (""),
      api_key := getenv env ("AZURE_OPENAI_API_KEY") (""),
      deployment_name := getenv env ("AZURE_OPENAI_MODEL") ("o4-mini") }
  let model_choice_env := getenv env ("MODEL_CHOICE") ("florence2")
  let model_choice : String :=
    if model_choice_env ∉ (["florence2", "phi3-vision"] : List String)
    then "florence2" else model_choice_env
  let model : ModelConfig :=
    { model_choice := model_choice, device := ModelConfig.defaultDevice env }
  let system : SystemConfig := {}
  { ai_search := ai_search, doc_intelligence := doc_intelligence,
    openai := openai, model := model, system := system }

/-- The (value, variable name) pairs checked by Config.validate, in the
order the checks are declared in the source. -/
def Config.requiredFields (c : Config) : List (String × String) :=
  [(c.ai_search.endpoint, "AZURE_SEARCH_ENDPOINT"),
   (c.ai_search.api_key, "AZURE_SEARCH_API_KEY"),
   (c.doc_intelligence.endpoint, "AZURE_DOC_INTELLIGENCE_ENDPOINT"),
   (c.doc_intelligence.api_key, "AZURE_DOC_INTELLIGENCE_API_KEY"),
   (c.openai.endpoint, "AZURE_OPENAI_ENDPOINT"),
   (c.openai.api_key, "AZURE_OPENAI_API_KEY")]

/-- The collection loop of Config.validate: the names of the required
fields whose value is falsy (for strings: empty), in check order. -/
def Config.missingFields (c : Config) : List String :=
  c.requiredFields.foldl (fun acc vf => if vf.1 = "" then acc ++ [vf.2] else acc) []

/-- Config.validate with its effects made explicit: the post-state of
the aggregate (the method assigns to no field, so it returns the object
unchanged), the boolean result, and the list of lines printed. The
method body contains no operation that can raise, so the embedding is a
total function. -/
def Config.validate (c : Config) : Config × Bool × List String :=
  let missing_fields := c.missingFields
  if missing_fields ≠ [] then
    (c, false,
      ["Missing required environment variables: "
        ++ String.intercalate (", ") missing_fields])
  else
    (c, true, [])

/-- The names of the six mandatory environment variables, in the order
Config.validate declares its checks. -/
def mandatoryVars : List String :=
  ["AZURE_SEARCH_ENDPOINT", "AZURE_SEARCH_API_KEY",
   "AZURE_DOC_INTELLIGENCE_ENDPOINT", "AZURE_DOC_INTELLIGENCE_API_KEY",
   "AZURE_OPENAI_ENDPOINT", "AZURE_OPENAI_API_KEY"]

/-- An environment in which every one of the six mandatory variables is
set, but to the empty string, and everything else is unset. -/
def envAllEmptyMandatory : Env :=
  fun k => if mandatoryVars.contains k then some ("") else none

/-- An environment in which every one of the six mandatory variables is
set to a non-empty placeholder and everything else is unset. -/
def envAllSet : Env :=
  fun k => if mandatoryVars.contains k then some ("x") else none

lemma missingFields_init (env : Env) :
    (Config.init env).missingFields
      = mandatoryVars.filter (fun v => getenv env v ("") = "") := by
  simp only [Config.init, Config.missingFields, Config.requiredFields,
    mandatoryVars, List.foldl_cons, List.foldl_nil, List.filter]
  split_ifs <;> simp_all

lemma validate_bool (c : Config) :
    ((Config.validate c)).2.1 = true ↔ c.missingFields = [] := by
  simp only [Config.validate]
  split_ifs <;> simp_all

lemma validate_printed (c : Config) :
    ((Config.validate c)).2.2
      = (if c.missingFields = [] then []
         else ["Missing required environment variables: "
                ++ String.intercalate (", ") c.missingFields]) := by
  simp only [Config.validate]
  split_ifs <;> simp_all

lemma missingFields_init_nil_iff (env : Env) :
    (Config.init env).missingFields = [] ↔
      (getenv env ("AZURE_SEARCH_ENDPOINT") ("") ≠ "" ∧
       getenv env ("AZURE_SEARCH_API_KEY") ("") ≠ "" ∧
       getenv env ("AZURE_DOC_INTELLIGENCE_ENDPOINT") ("") ≠ "" ∧
       getenv env ("AZURE_DOC_INTELLIGENCE_API_KEY") ("") ≠ "" ∧
       getenv env ("AZURE_OPENAI_ENDPOINT") ("") ≠ "" ∧
       getenv env ("AZURE_OPENAI_API_KEY") ("") ≠ "") := by
  rw [missingFields_init]
  simp [mandatoryVars, List.filter_eq_nil_iff]

/-- Claim C1: on the constructed aggregate, validate() returns true if
and only if all six mandatory fields (search endpoint and api_key,
document-extraction endpoint and api_key, language-model endpoint and
api_key) are non-empty strings; since the result is a boolean, it is
false exactly when at least one of them is empty. -/
theorem confirmed_C1 (env : Env) :
    ((Config.validate (Config.init env))).2.1 = true ↔
      ((Config.init env).ai_search.endpoint ≠ "" ∧
       (Config.init env).ai_search.api_key ≠ "" ∧
       (Config.init env).doc_intelligence.endpoint ≠ "" ∧
       (Config.init env).doc_intelligence.api_key ≠ "" ∧
       (Config.init env).openai.endpoint ≠ "" ∧
       (Config.init env).openai.api_key ≠ "") := by
  rw [validate_bool, missingFields_init_nil_iff]
  simp [Config.init]

/-- Claim C1, instantiated: with all six mandatory variables set to a
non-empty placeholder, validate() returns true. -/
theorem confirmed_C1_witness :
    ((Config.validate (Config.init envAllSet))).2.1 = true :=
  (confirmed_C1 envAllSet).mpr (by decide)

/-- Claim C2 as stated is false: in this environment every one of the
six mandatory variables is set (so the number N of unset mandatory
variables is 0), yet validate() emits a diagnostic message, because the
check tests the fields for emptiness, not the variables for presence. -/
theorem counterexample_C2 :
    (mandatoryVars.filter (fun v => envAllEmptyMandatory v = none)).length = 0 ∧
    ((Config.validate (Config.init envAllEmptyMandatory))).2.2 ≠ [] := by
  constructor
  · decide
  · decide

/-- Claim C2 amended: for every environment, validate() emits a
diagnostic message if and only if at least one of the six mandatory
variables is unset or set to the empty string, and that single message
lists exactly the names of those variables, comma-separated, in the
fixed order the checks were declared. -/
theorem corrected_C2 (env : Env) :
    ((Config.validate (Config.init env))).2.2 =
      (if mandatoryVars.filter (fun v => getenv env v ("") = "") = [] then []
       else ["Missing required environment variables: "
              ++ String.intercalate (", ")
                 (mandatoryVars.filter (fun v => getenv env v ("") = ""))]) := by
  rw [validate_printed, missingFields_init]

/-- Claim C3: the deployment_name field of the language-model record
defaults to "gpt-4o" when no value is supplied for it. -/
theorem confirmed_C3 (e k : String) :
    ({ endpoint := e, api_key := k } : AzureOpenAIConfig).deployment_name
      = "gpt-4o" := rfl

/-- Claim C4: in the constructed aggregate, an unset AZURE_OPENAI_MODEL
yields deployment_name equal to "o4-mini", and a set AZURE_OPENAI_MODEL
yields deployment_name equal to exactly its value. -/
theorem confirmed_C4 (env : Env) :
    (env ("AZURE_OPENAI_MODEL") = none →
      (Config.init env).openai.deployment_name = "o4-mini") ∧
    (∀ v, env ("AZURE_OPENAI_MODEL") = some v →
      (Config.init env).openai.deployment_name = v) := by
  constructor
  · intro h
    simp [Config.init, getenv, h]
  · intro v h
    simp [Config.init, getenv, h]

/-- Claim C4, instantiated: with AZURE_OPENAI_MODEL unset the deployment
name is "o4-mini", and with it set to "gpt-4.1" it is "gpt-4.1". -/
theorem confirmed_C4_witness :
    (Config.init (fun _ => none)).openai.deployment_name = "o4-mini" ∧
    (Config.init
      (fun k => if k = "AZURE_OPENAI_MODEL"
                then some ("gpt-4.1") else none)).openai.deployment_name
      = "gpt-4.1" :=
  ⟨(confirmed_C4 (fun _ => none)).1 rfl,
   (confirmed_C4 _).2 ("gpt-4.1") (by decide)⟩

/-- Claim C5: the constructed model_choice is always one of the two
enumerated values; MODEL_CHOICE set to "phi3-vision" yields
"phi3-vision", while MODEL_CHOICE unset or set to any other string
(including "florence2" itself and unrecognized strings) yields
"florence2", and construction is total, so no error is raised. -/
theorem confirmed_C5 (env : Env) :
    ((Config.init env).model.model_choice = "florence2" ∨
     (Config.init env).model.model_choice = "phi3-vision") ∧
    (env ("MODEL_CHOICE") = some ("phi3-vision") →
      (Config.init env).model.model_choice = "phi3-vision") ∧
    (env ("MODEL_CHOICE") = none →
      (Config.init env).model.model_choice = "florence2") ∧
    (∀ v, env ("MODEL_CHOICE") = some v → v ≠ "phi3-vision" →
      (Config.init env).model.model_choice = "florence2") := by
  refine ⟨?_, ?_, ?_, ?_⟩
  · rcases h : env ("MODEL_CHOICE") with _ | v
    · left
      simp [Config.init, getenv, h]
    · by_cases hp : v = "phi3-vision"
      · right
        simp [Config.init, getenv, h, hp]
      · left
        by_cases hf : v = "florence2"
        · simp [Config.init, getenv, h, hf]
        · have hm : v ∉ (["florence2", "phi3-vision"] : List String) := by
            simp [hf, hp]
          simp [Config.init, getenv, h, hm]
  · intro h
    simp [Config.init, getenv, h]
  · intro h
    simp [Config.init, getenv, h]
  · intro v h hv
    by_cases hf : v = "florence2"
    · simp [Config.init, getenv, h, hf]
    · have hm : v ∉ (["florence2", "phi3-vision"] : List String) := by
        simp [hf, hv]
      simp [Config.init, getenv, h, hm]

/-- Claim C5, instantiated: MODEL_CHOICE set to "phi3-vision" yields
"phi3-vision"; unset yields "florence2"; set to the unrecognized string
"gpt4v" yields "florence2". -/
theorem confirmed_C5_witness :
    (Config.init
      (fun k => if k = "MODEL_CHOICE"
                then some ("phi3-vision") else none)).model.model_choice
      = "phi3-vision" ∧
    (Config.init (fun _ => none)).model.model_choice = "florence2" ∧
    (Config.init
      (fun k => if k = "MODEL_CHOICE"
                then some ("gpt4v") else none)).model.model_choice
      = "florence2" :=
  ⟨(confirmed_C5 _).2.1 (by decide),
   (confirmed_C5 (fun _ => none)).2.2.1 rfl,
   (confirmed_C5 _).2.2.2 ("gpt4v") (by decide) (by decide)⟩

/-- Claim C6: the device field of the vision-model record is "cuda"
when CUDA_AVAILABLE is set to a truthy (non-empty) value and "cpu"
otherwise; the resolution is a plain field of the record computed from
the environment when the aggregate is built, so it is fixed at
construction and never re-evaluated. -/
theorem confirmed_C6 (env : Env) :
    (∀ s, env ("CUDA_AVAILABLE") = some s → s ≠ "" →
      (Config.init env).model.device = "cuda") ∧
    ((env ("CUDA_AVAILABLE") = none ∨ env ("CUDA_AVAILABLE") = some ("")) →
      (Config.init env).model.device = "cpu") := by
  constructor
  · intro s h hs
    simp [Config.init, ModelConfig.defaultDevice, pyTruthy, h, hs]
  · rintro (h | h) <;>
      simp [Config.init, ModelConfig.defaultDevice, pyTruthy, h]

/-- Claim C6, instantiated: CUDA_AVAILABLE set to "1" yields device
"cuda"; CUDA_AVAILABLE unset yields device "cpu". -/
theorem confirmed_C6_witness :
    (Config.init
      (fun k => if k = "CUDA_AVAILABLE" then some ("1") else none)).model.device
      = "cuda" ∧
    (Config.init (fun _ => none)).model.device = "cpu" :=
  ⟨(confirmed_C6 _).1 ("1") (by decide) (by decide),
   (confirmed_C6 (fun _ => none)).2 (Or.inl rfl)⟩

/-- Claim C7: construction of the aggregate is a total function of the
environment, so it succeeds on every environment, including one where
every variable is absent; in that case every mandatory field is the
empty string and every optional field is its documented default. -/
theorem confirmed_C7 (env : Env) (h : ∀ k, env k = none) :
    Config.init env =
      { ai_search := { endpoint := "", api_key := "", index_name := "rag-index" },
        doc_intelligence := { endpoint := "", api_key := "" },
        openai := { endpoint := "", api_key := "",
                    deployment_name := "o4-mini", api_version := "2024-02-01" },
        model := { model_choice := "florence2", device := "cpu", batch_size := 1 },
        system := { temp_dir := "./temp",
                    patch_matrix_dir := "./patch_matrices",
                    manifest_dir := "./manifests",
                    max_pages_per_doc := 100, default_k := 10 } } := by
  simp [Config.init, getenv, ModelConfig.defaultDevice, pyTruthy, h]

/-- Claim C7, instantiated at the everywhere-unset environment. -/
theorem confirmed_C7_witness :
    Config.init (fun _ => none) =
      { ai_search := { endpoint := "", api_key := "", index_name := "rag-index" },
        doc_intelligence := { endpoint := "", api_key := "" },
        openai := { endpoint := "", api_key := "",
                    deployment_name := "o4-mini", api_version := "2024-02-01" },
        model := { model_choice := "florence2", device := "cpu", batch_size := 1 },
        system := { temp_dir := "./temp",
                    patch_matrix_dir := "./patch_matrices",
                    manifest_dir := "./manifests",
                    max_pages_per_doc := 100, default_k := 10 } } :=
  confirmed_C7 (fun _ => none) (fun _ => rfl)

/-- Claim C8: validate() assigns to no field, so the aggregate it
returns as its post-state is the very object it was called on; its only
outputs are the boolean result and the printed diagnostic lines, and
its body is a total function, so it never raises. -/
theorem confirmed_C8 (c : Config) : ((Config.validate c)).1 = c := by
  simp only [Config.validate]
  split_ifs <;> rfl

/-- Claim C9: for every environment, the non-environment-configurable
fields of the constructed aggregate equal their documented literal
defaults. -/
theorem confirmed_C9 (env : Env) :
    (Config.init env).ai_search.index_name = "rag-index" ∧
    (Config.init env).openai.api_version = "2024-02-01" ∧
    (Config.init env).model.batch_size = 1 ∧
    (Config.init env).system.temp_dir = "./temp" ∧
    (Config.init env).system.patch_matrix_dir = "./patch_matrices" ∧
    (Config.init env).system.manifest_dir = "./manifests" ∧
    (Config.init env).system.max_pages_per_doc = 100 ∧
    (Config.init env).system.default_k = 10 :=
  ⟨rfl, rfl, rfl, rfl, rfl, rfl, rfl, rfl⟩

/-- Claim C10: CUDA_AVAILABLE is interpreted purely by string
non-emptiness: when it is set to s, the device is "cuda" exactly when s
is non-empty (so "0", "false" and "no" all yield "cuda"), and when it
is unset or set to the empty string the device is "cpu". -/
theorem confirmed_C10 (env : Env) :
    (∀ s, env ("CUDA_AVAILABLE") = some s →
      ((Config.init env).model.device = "cuda" ↔ s ≠ "")) ∧
    ((env ("CUDA_AVAILABLE") = none ∨ env ("CUDA_AVAILABLE") = some ("")) →
      (Config.init env).model.device = "cpu") := by
  constructor
  · intro s h
    by_cases hs : s = "" <;>
      simp [Config.init, ModelConfig.defaultDevice, pyTruthy, h, hs]
  · rintro (h | h) <;>
      simp [Config.init, ModelConfig.defaultDevice, pyTruthy, h]

/-- Claim C10, instantiated: CUDA_AVAILABLE set to "0" still yields
device "cuda", and unset yields "cpu". -/
theorem confirmed_C10_witness :
    (Config.init
      (fun k => if k = "CUDA_AVAILABLE" then some ("0") else none)).model.device
      = "cuda" ∧
    (Config.init (fun _ => none)).model.device = "cpu" :=
  ⟨((confirmed_C10 _).1 ("0") (by decide)).mpr (by decide),
   (confirmed_C10 (fun _ => none)).2 (Or.inl rfl)⟩
